import Mathlib

/-!
Verification development for the presi POSIX printer spooler
(`src/src/{job_manager,printer_manager,cli,command_handler}.c`).

The C modules are shallowly embedded as pure Lean functions over an explicit
`SpoolerState` (the global printer registry and job table).  External
collaborators that are not part of the repository (the file-type and
conversion registries from `conversions.c`, `fork`, `killpg`, `waitpid`) are
modelled as oracle parameters; all state that the code of the repository
mutates is threaded explicitly.  Side effects are made observable as values:
`sf_*` notifications become an `Event` list, `killpg` calls become a list of
(process-group, signal) pairs, console `fprintf` lines become a `List String`.
-/

namespace Presi

/-- Job lifecycle states, from the `JOB_STATUS` enumeration used throughout
`job_manager.c` and `cli.c`. -/
inductive JOB_STATUS
  | JOB_CREATED
  | JOB_RUNNING
  | JOB_PAUSED
  | JOB_FINISHED
  | JOB_ABORTED
  | JOB_DELETED
  deriving DecidableEq, Repr

/-- Printer states, from the `PRINTER_STATUS` enumeration used by
`printer_manager.c`. -/
inductive PRINTER_STATUS
  | PRINTER_DISABLED
  | PRINTER_IDLE
  | PRINTER_BUSY
  deriving DecidableEq, Repr

open JOB_STATUS PRINTER_STATUS

/-- A printer registry entry (`struct printer`, `printer_struct.h`).
`FILE_TYPE*` fields are modelled by the name of the type: the registries intern
type objects, and the C code compares types either by pointer into the
registry or by `strcmp` on their names. -/
structure PRINTER where
  name : String
  type : String
  status : PRINTER_STATUS
  deriving DecidableEq, Repr

/-- A job table entry (`struct job`, `job_struct.h`).  `target_printer` is a
pointer into the printer registry, modelled as an index into the registry
list; `pgid` keeps the C sentinel `-1` for "no pipeline". -/
structure JOB where
  id : Nat
  input_file_path : String
  target_printer : Option Nat
  status : JOB_STATUS
  pgid : Int
  created_at : Nat
  status_changed_at : Nat
  deriving DecidableEq, Repr

/-- The observable spooler state: the dense prefix of `printer_registry`
(`printer_manager.c`) and the dense prefix of `job_spool` (`job_manager.c`).
Array cells at or beyond `job_count` / `number_of_registered_printers` are
unobservable through the accessors (`get_job_by_index`, `get_job_count`,
`get_printer_by_index`, `get_printer_count`) that the rest of the program
uses, so the model keeps only the dense prefixes. -/
structure SpoolerState where
  printers : List PRINTER
  jobs : List JOB
  deriving DecidableEq, Repr

/-- The `sf_*` event-sink notifications emitted by the core. -/
inductive Event
  | cmd_ok
  | cmd_error (msg : String)
  | printer_defined (name ty : String)
  | printer_status (name : String) (st : PRINTER_STATUS)
  | job_created (id : Nat) (path ty : String)
  | job_status (id : Nat) (st : JOB_STATUS)
  | job_started (id : Nat) (printerName : String) (pgid : Int) (cmds : List String)
  | job_finished (id : Nat) (exitCode : Nat)
  | job_aborted (id : Nat) (sig : Nat)
  | job_deleted (id : Nat)
  deriving DecidableEq, Repr

/-- Signals the spooler delivers with `killpg`. -/
inductive SignalKind
  | SIGSTOP
  | SIGCONT
  | SIGTERM
  deriving DecidableEq, Repr

/-- External collaborators of the core, modelled as oracles:
the file-type / conversion registries (`conversions.c`, not part of the
repository) and the OS `fork` for pipeline launches.
`find_conversion_path` returns the list of stage command names
(`path[i]->cmd_and_args[0]`) or `none` when no path exists;
`fork_result` gives the pid of the n-th pipeline launch (`< 0` = failure). -/
structure Oracles where
  infer_file_type : String → Option String
  find_type : String → Bool
  define_type_ok : String → Bool
  define_conversion_ok : String → String → Bool
  find_conversion_path : String → String → Option (List String)
  fork_result : Nat → Int

/-- Result of a job-manager operation: the C return value, the state after
the call, the `killpg` calls issued, and the `sf_*` events emitted. -/
structure OpResult where
  ret : Int
  state : SpoolerState
  signals : List (Int × SignalKind)
  events : List Event
  deriving DecidableEq, Repr

/-- `cancel_job` (`job_manager.c:485-525`).

The C validates `job_id < 0 || job_id >= job_count` and then indexes
`job_spool[job_id]` directly (the given number is used as an array position,
not compared against the `id` fields of the jobs).  A `JOB_CREATED` job is
aborted immediately.  A `JOB_RUNNING`/`JOB_PAUSED` job receives `SIGCONT`
(if paused) and `SIGTERM`, and then — still synchronously, before any child
status event — its status is set to `JOB_ABORTED`, `status_changed_at` is
refreshed and the target printer is set idle.  The C dereferences
`job->target_printer` unconditionally in that branch; a running or paused
job always has an assigned printer, and the model leaves the registry
untouched in the (unreachable in C) case that the pointer is absent.
Note that `job->pgid` is not reset anywhere in this function. -/
def cancel_job (st : SpoolerState) (job_id : Int) (now : Nat) : OpResult :=
  if job_id < 0 ∨ (st.jobs.length : Int) ≤ job_id then ⟨-1, st, [], []⟩
  else
    match st.jobs[job_id.toNat]? with
    | none => ⟨-1, st, [], []⟩
    | some job =>
      if job.status = JOB_CREATED then
        let job' := { job with status := JOB_ABORTED, status_changed_at := now }
        ⟨0, { st with jobs := st.jobs.set job_id.toNat job' }, [],
          [Event.job_status job.id JOB_ABORTED, Event.job_aborted job.id 0]⟩
      else if job.status ≠ JOB_RUNNING ∧ job.status ≠ JOB_PAUSED then
        ⟨-1, st, [], []⟩
      else
        let sigs :=
          (if job.status = JOB_PAUSED then [(job.pgid, SignalKind.SIGCONT)] else [])
            ++ [(job.pgid, SignalKind.SIGTERM)]
        let job' := { job with status := JOB_ABORTED, status_changed_at := now }
        match job.target_printer with
        | some k =>
          match st.printers[k]? with
          | some p =>
            ⟨0, ⟨st.printers.set k { p with status := PRINTER_IDLE },
                 st.jobs.set job_id.toNat job'⟩, sigs,
              [Event.job_status job.id JOB_ABORTED,
               Event.printer_status p.name PRINTER_IDLE,
               Event.job_aborted job.id 0]⟩
          | none =>
            ⟨0, { st with jobs := st.jobs.set job_id.toNat job' }, sigs,
              [Event.job_status job.id JOB_ABORTED, Event.job_aborted job.id 0]⟩
        | none =>
          ⟨0, { st with jobs := st.jobs.set job_id.toNat job' }, sigs,
            [Event.job_status job.id JOB_ABORTED, Event.job_aborted job.id 0]⟩

/-- `pause_job` (`job_manager.c:540-552`).  Validates the bound, requires
`JOB_RUNNING`, and only sends `SIGSTOP` to `job_spool[job_id].pgid` — no
field of any job or printer is written.  The `killpg` return value is
modelled as `0` (delivery to a live pipeline group). -/
def pause_job (st : SpoolerState) (job_id : Int) : OpResult :=
  if job_id < 0 ∨ (st.jobs.length : Int) ≤ job_id then ⟨-1, st, [], []⟩
  else
    match st.jobs[job_id.toNat]? with
    | none => ⟨-1, st, [], []⟩
    | some job =>
      if job.status ≠ JOB_RUNNING then ⟨-1, st, [], []⟩
      else ⟨0, st, [(job.pgid, SignalKind.SIGSTOP)], []⟩

/-- `resume_job` (`job_manager.c:567-579`).  Same shape as `pause_job`:
requires `JOB_PAUSED` and only sends `SIGCONT`. -/
def resume_job (st : SpoolerState) (job_id : Int) : OpResult :=
  if job_id < 0 ∨ (st.jobs.length : Int) ≤ job_id then ⟨-1, st, [], []⟩
  else
    match st.jobs[job_id.toNat]? with
    | none => ⟨-1, st, [], []⟩
    | some job =>
      if job.status ≠ JOB_PAUSED then ⟨-1, st, [], []⟩
      else ⟨0, st, [(job.pgid, SignalKind.SIGCONT)], []⟩

/-- `delete_expired_jobs_if_needed` (`job_manager.c:434-451`).  The C loop
removes, in place with compaction (`i--` after each removal), every job that
has been `JOB_FINISHED` or `JOB_ABORTED` for at least 10 seconds
(`difftime(now, status_changed_at) >= 10.0`), emitting `sf_job_deleted` for
each; the removal test of a job does not depend on earlier removals, so the
loop is the order-preserving filter below. -/
def delete_expired_jobs_if_needed (now : Nat) : List JOB → List JOB × List Event
  | [] => ([], [])
  | j :: rest =>
    let (rest', evs) := delete_expired_jobs_if_needed now rest
    if (j.status = JOB_FINISHED ∨ j.status = JOB_ABORTED) ∧
        j.status_changed_at + 10 ≤ now then
      (rest', Event.job_deleted j.id :: evs)
    else
      (j :: rest', evs)

/-- `get_printer_by_name` (`printer_manager.c:119-126`): linear search over
the registry in insertion order, returning (the index of) the first printer
whose name matches. -/
def get_printer_by_name_from (name : String) : Nat → List PRINTER → Option Nat
  | _, [] => none
  | k, p :: rest =>
    if p.name = name then some k else get_printer_by_name_from name (k + 1) rest

/-- Entry point of the registry name lookup (index 0 upward). -/
def get_printer_by_name (printers : List PRINTER) (name : String) : Option Nat :=
  get_printer_by_name_from name 0 printers

/-- `add_printer_to_system` (`printer_manager.c:72-97`): rejects a full
registry, a duplicate name, or an unknown file type; otherwise appends a
`PRINTER_DISABLED` printer and emits `sf_printer_defined`. -/
def add_printer_to_system (o : Oracles) (maxPrinters : Nat) (printers : List PRINTER)
    (name ty : String) : Int × List PRINTER × List Event :=
  if maxPrinters ≤ printers.length then (-1, printers, [])
  else if (get_printer_by_name printers name).isSome then (-1, printers, [])
  else if o.find_type ty = false then (-1, printers, [])
  else
    (0, printers ++ [⟨name, ty, PRINTER_DISABLED⟩], [Event.printer_defined name ty])

/-- `select_compatible_printer` (`printer_manager.c:167-207`), inner loop.
The C scans the registry in insertion order and returns the FIRST idle
printer that is compatible at all — either a native `strcmp` match or a
conversion path — without ever comparing a direct match found later against
a conversion match found earlier. -/
def select_compatible_printer_from (o : Oracles) (from_type : String) :
    Nat → List PRINTER → Option Nat
  | _, [] => none
  | k, p :: rest =>
    if p.status ≠ PRINTER_IDLE then
      select_compatible_printer_from o from_type (k + 1) rest
    else if p.type = from_type then some k
    else if (o.find_conversion_path from_type p.type).isSome then some k
    else select_compatible_printer_from o from_type (k + 1) rest

/-- Entry point of the printer selection scan (index 0 upward). -/
def select_compatible_printer (o : Oracles) (from_type : String)
    (printers : List PRINTER) : Option Nat :=
  select_compatible_printer_from o from_type 0 printers

/-- The selection rule as the specification words it (§4.E): among the idle
compatible printers, one whose native type directly matches the source type
is preferred over any printer that needs a conversion; ties are broken by
registry order.  Stated only to be compared against
`select_compatible_printer` above. -/
def select_compatible_printer_specified (o : Oracles) (from_type : String)
    (printers : List PRINTER) : Option Nat :=
  match printers.findIdx?
      (fun p => decide (p.status = PRINTER_IDLE ∧ p.type = from_type)) with
  | some k => some k
  | none =>
    printers.findIdx?
      (fun p => decide (p.status = PRINTER_IDLE ∧
        (o.find_conversion_path from_type p.type).isSome))

/-- Result of a scheduler / submission step: the state, the events emitted,
and the number of pipeline launches (`fork`s of a pipeline master) consumed
from the `fork_result` oracle so far. -/
structure SchedResult where
  state : SpoolerState
  events : List Event
  forkN : Nat
  deriving DecidableEq, Repr

/-- One iteration of the `try_scheduling_jobs` loop (`job_manager.c:348-422`)
for the job at index `i`: skip anything not `JOB_CREATED`; infer the source
type; pick a printer with `select_compatible_printer`; then either launch a
passthrough pipeline (native `strcmp` match) or re-derive the conversion
path and launch with it.  On a failed launch the C resets
`job->target_printer` to `NULL` and leaves everything else untouched;
on success it records the pgid, sets `JOB_RUNNING`/`PRINTER_BUSY`, and emits
`sf_job_status`, `sf_printer_status`, `sf_job_started`. -/
def sched_step (o : Oracles) (now : Nat) (st : SpoolerState) (i : Nat)
    (n : Nat) : SchedResult :=
  match st.jobs[i]? with
  | none => ⟨st, [], n⟩
  | some job =>
    if job.status ≠ JOB_CREATED then ⟨st, [], n⟩
    else
      match o.infer_file_type job.input_file_path with
      | none => ⟨st, [], n⟩
      | some from_type =>
        match select_compatible_printer o from_type st.printers with
        | none => ⟨st, [], n⟩
        | some k =>
          match st.printers[k]? with
          | none => ⟨st, [], n⟩
          | some printer =>
            if from_type = printer.type then
              let pid := o.fork_result n
              if pid < 0 then
                ⟨{ st with jobs := st.jobs.set i { job with target_printer := none } },
                 [], n + 1⟩
              else
                let job' : JOB := ⟨job.id, job.input_file_path, some k,
                  JOB_RUNNING, pid, job.created_at, now⟩
                ⟨⟨st.printers.set k { printer with status := PRINTER_BUSY },
                  st.jobs.set i job'⟩,
                 [Event.job_status job.id JOB_RUNNING,
                  Event.printer_status printer.name PRINTER_BUSY,
                  Event.job_started job.id printer.name pid ["cat"]],
                 n + 1⟩
            else
              match o.find_conversion_path from_type printer.type with
              | none =>
                ⟨{ st with jobs := st.jobs.set i { job with target_printer := none } },
                 [], n⟩
              | some cmds =>
                let pid := o.fork_result n
                if pid < 0 then
                  ⟨{ st with jobs := st.jobs.set i { job with target_printer := none } },
                   [], n + 1⟩
                else
                  let job' : JOB := ⟨job.id, job.input_file_path, some k,
                    JOB_RUNNING, pid, job.created_at, now⟩
                  ⟨⟨st.printers.set k { printer with status := PRINTER_BUSY },
                    st.jobs.set i job'⟩,
                   [Event.job_status job.id JOB_RUNNING,
                    Event.printer_status printer.name PRINTER_BUSY,
                    Event.job_started job.id printer.name pid cmds],
                   n + 1⟩

/-- Folds `sched_step` over a list of job indices, threading state, events
and the fork counter. -/
def sched_loop (o : Oracles) (now : Nat) :
    List Nat → SpoolerState → Nat → SchedResult
  | [], st, n => ⟨st, [], n⟩
  | i :: rest, st, n =>
    let r := sched_step o now st i n
    let r' := sched_loop o now rest r.state r.forkN
    ⟨r'.state, r.events ++ r'.events, r'.forkN⟩

/-- `try_scheduling_jobs` (`job_manager.c:348-422`): iterates the loop body
over all current job indices (the job count is unchanged by the body, so the
index range is fixed up front). -/
def try_scheduling_jobs (o : Oracles) (now : Nat) (st : SpoolerState)
    (n : Nat) : SchedResult :=
  sched_loop o now (List.range st.jobs.length) st n

/-- `submit_print_job` (`job_manager.c:240-334`), `printer` modelled as an
optional registry index (C passes a `PRINTER*` into the registry, so the
index is in range whenever the C pointer is valid; an out-of-range index is
mapped to the error return).

Order of effects in the C: validate path / capacity / inferred type /
explicit-printer compatibility; write the job fields into
`job_spool[job_count]` and emit `sf_job_created`; then either (no printer)
mark `JOB_CREATED`, emit `sf_job_status`, increment `job_count` and run
`try_scheduling_jobs`, or (explicit printer) launch the pipeline — returning
`-1` with `job_count` still unchanged if the launch fails (the slot write is
unobservable because `get_job_by_index` bounds-checks against `job_count`)
— and on success set `JOB_RUNNING`/`PRINTER_BUSY` and increment the count.
The trailing `printf` job summary (console output, `localtime`-formatted)
is not part of the event sink and is not modelled. -/
def submit_print_job (o : Oracles) (maxJobs now : Nat) (file_path : Option String)
    (printerIdx : Option Nat) (st : SpoolerState) (n : Nat) : OpResult × Nat :=
  match file_path with
  | none => (⟨-1, st, [], []⟩, n)
  | some path =>
    if maxJobs ≤ st.jobs.length then (⟨-1, st, [], []⟩, n)
    else
      match o.infer_file_type path with
      | none => (⟨-1, st, [], []⟩, n)
      | some from_type =>
        match printerIdx with
        | none =>
          let job : JOB :=
            ⟨st.jobs.length, path, none, JOB_CREATED, -1, now, now⟩
          let st1 : SpoolerState := ⟨st.printers, st.jobs ++ [job]⟩
          let r := try_scheduling_jobs o now st1 n
          (⟨0, r.state, [],
            [Event.job_created job.id path from_type,
             Event.job_status job.id JOB_CREATED] ++ r.events⟩, r.forkN)
        | some pk =>
          match st.printers[pk]? with
          | none => (⟨-1, st, [], []⟩, n)
          | some printer =>
            if printer.status ≠ PRINTER_IDLE then (⟨-1, st, [], []⟩, n)
            else if printer.type ≠ from_type ∧
                (o.find_conversion_path from_type printer.type) = none then
              (⟨-1, st, [], []⟩, n)
            else
              let pid := o.fork_result n
              if pid < 0 then
                (⟨-1, st, [], [Event.job_created st.jobs.length path from_type]⟩,
                 n + 1)
              else
                let job : JOB :=
                  ⟨st.jobs.length, path, some pk, JOB_RUNNING, pid, now, now⟩
                let cmds :=
                  match o.find_conversion_path from_type printer.type with
                  | none => ["cat"]
                  | some cs => cs
                (⟨0, ⟨st.printers.set pk { printer with status := PRINTER_BUSY },
                      st.jobs ++ [job]⟩, [],
                  [Event.job_created job.id path from_type,
                   Event.job_status job.id JOB_RUNNING,
                   Event.printer_status printer.name PRINTER_BUSY,
                   Event.job_started job.id printer.name pid cmds]⟩, n + 1)

/-- An OS child-status report as classified by the `WIF*` macros in
`handle_child_status_updates` (`cli.c:89-122`). -/
inductive WaitStatus
  | stopped
  | continued
  | exited (code : Nat)
  | signaled (sig : Nat)
  deriving DecidableEq, Repr

/-- The body of the per-job branch of `handle_child_status_updates`
(`cli.c:89-122`) once `job->pgid == pid` has matched: Stopped → `JOB_PAUSED`,
Continued → `JOB_RUNNING` (neither touches `status_changed_at` nor any
printer), Exited (any code) → `JOB_FINISHED`, Signalled → `JOB_ABORTED`
(both refresh `status_changed_at` and idle the target printer when one is
assigned).  No branch writes `job->pgid`. -/
def apply_child_event (now : Nat) (ws : WaitStatus) (job : JOB)
    (printers : List PRINTER) : JOB × List PRINTER × List Event :=
  match ws with
  | .stopped =>
    ({ job with status := JOB_PAUSED }, printers,
     [Event.job_status job.id JOB_PAUSED])
  | .continued =>
    ({ job with status := JOB_RUNNING }, printers,
     [Event.job_status job.id JOB_RUNNING])
  | .exited code =>
    let job' := { job with status := JOB_FINISHED, status_changed_at := now }
    let base := [Event.job_status job.id JOB_FINISHED,
                 Event.job_finished job.id code]
    match job.target_printer with
    | some k =>
      match printers[k]? with
      | some p =>
        (job', printers.set k { p with status := PRINTER_IDLE },
         base ++ [Event.printer_status p.name PRINTER_IDLE])
      | none => (job', printers, base)
    | none => (job', printers, base)
  | .signaled sig =>
    let job' := { job with status := JOB_ABORTED, status_changed_at := now }
    let base := [Event.job_status job.id JOB_ABORTED,
                 Event.job_aborted job.id sig]
    match job.target_printer with
    | some k =>
      match printers[k]? with
      | some p =>
        (job', printers.set k { p with status := PRINTER_IDLE },
         base ++ [Event.printer_status p.name PRINTER_IDLE])
      | none => (job', printers, base)
    | none => (job', printers, base)

/-- The inner `for` loop of `handle_child_status_updates` (`cli.c:81-123`)
for a single reaped `(pid, status)` pair: every job whose `pgid` equals the
reaped pid is updated with `apply_child_event`; all other jobs pass through
unchanged. -/
def reap_scan (now : Nat) (pid : Int) (ws : WaitStatus) :
    List JOB → List PRINTER → List JOB × List PRINTER × List Event
  | [], ps => ([], ps, [])
  | job :: rest, ps =>
    if job.pgid = pid then
      let (job', ps', evs) := apply_child_event now ws job ps
      let (rest', ps'', evs') := reap_scan now pid ws rest ps'
      (job' :: rest', ps'', evs ++ evs')
    else
      let (rest', ps', evs') := reap_scan now pid ws rest ps
      (job :: rest', ps', evs')

/-- The `waitpid(WNOHANG | WUNTRACED | WCONTINUED)` drain loop of
`handle_child_status_updates` (`cli.c:79-124`), over the sequence of
`(pid, status)` pairs the non-blocking wait delivers. -/
def drain_child_events (now : Nat) :
    List (Int × WaitStatus) → SpoolerState → SpoolerState × List Event
  | [], st => (st, [])
  | (pid, ws) :: rest, st =>
    let (jobs', ps', evs) := reap_scan now pid ws st.jobs st.printers
    let (st', evs') := drain_child_events now rest ⟨ps', jobs'⟩
    (st', evs ++ evs')

/-- Result of `handle_child_status_updates`: the final state, the events
emitted, how many times `try_scheduling_jobs` was invoked, and the fork
counter. -/
structure DispatchResult where
  state : SpoolerState
  events : List Event
  schedulerCalls : Nat
  forkN : Nat
  deriving DecidableEq, Repr

/-- `handle_child_status_updates` (`cli.c:62-127`): returns immediately when
the `SIGCHLD` flag is clear; otherwise drains every pending child status
change and then — after the drain loop, once — calls `try_scheduling_jobs`.
`schedulerCalls` counts the `try_scheduling_jobs()` invocations made by this
call. -/
def handle_child_status_updates (o : Oracles) (now : Nat) (flag : Bool)
    (pending : List (Int × WaitStatus)) (st : SpoolerState) (n : Nat) :
    DispatchResult :=
  if flag = false then ⟨st, [], 0, n⟩
  else
    let (st1, evs1) := drain_child_events now pending st
    let r := try_scheduling_jobs o now st1 n
    ⟨r.state, evs1 ++ r.events, 1, r.forkN⟩

/-- A single-quote character, used to assemble the literal CLI messages. -/
def sq : String := "\x27"

/-- C `isspace` in the POSIX locale: space, tab, newline, vertical tab,
form feed, carriage return (`ctype.h`, used by `cli.c`). -/
def c_isspace (c : Char) : Bool :=
  c = ' ' ∨ c = '\t' ∨ c = '\n' ∨ c = Char.ofNat 11 ∨ c = Char.ofNat 12 ∨ c = '\r'

/-- The `is_all_whitespace` scan in `run_cli` (`cli.c:227-234`): true iff no
character of the line is non-whitespace. -/
def is_all_whitespace (cs : List Char) : Bool :=
  cs.all c_isspace

/-- The skip decision of `run_cli` (`cli.c:235`):
`is_all_whitespace || isspace(input_line[0])`.  On an empty line the C reads
`input_line[0] == 0` and `isspace(0)` is false (the all-whitespace test
already holds there). -/
def line_is_skipped (cs : List Char) : Bool :=
  is_all_whitespace cs || c_isspace (cs.headD (Char.ofNat 0))

/-- `split_input_line_into_tokens` (`cli.c:140-172`): whitespace-separated
tokens, in order, collecting at most `cap` (= `MAX_COMMAND_TOKENS` = 32)
tokens; one separator character after each token is consumed by the
in-place NUL write. -/
def split_input_line_into_tokens : Nat → List Char → List (List Char)
  | 0, _ => []
  | cap + 1, cs =>
    match cs.dropWhile c_isspace with
    | [] => []
    | c :: rest =>
      let tok := (c :: rest).takeWhile (fun x => !c_isspace x)
      let rem := (c :: rest).dropWhile (fun x => !c_isspace x)
      tok :: split_input_line_into_tokens cap (rem.drop 1)

/-- What `run_cli` (`cli.c:203-274`) does with one input line, up to the
point of dispatch: skip it (no tokenization, no `sf_cmd_*` event), reject an
untokenizable line as unrecognized, or hand the token list to the command
dispatch (the `quit` special case included). -/
inductive LineAction
  | skipped
  | unrecognized_empty
  | dispatched (tokens : List (List Char))
  deriving DecidableEq, Repr

/-- The per-line skip/tokenize/dispatch decision of `run_cli`
(`cli.c:227-269`). -/
def process_input_line (cs : List Char) : LineAction :=
  if line_is_skipped cs then .skipped
  else
    match split_input_line_into_tokens 32 cs with
    | [] => .unrecognized_empty
    | t :: ts => .dispatched (t :: ts)

/-- C `atoi` as used by the cancel/pause/resume handlers
(`command_handler.c`): leading whitespace, optional sign, then leading
digits; conversion stops at the first non-digit. -/
def atoi_digits : List Char → Int → Int
  | [], acc => acc
  | c :: rest, acc =>
    if c.isDigit then atoi_digits rest (acc * 10 + ((c.toNat : Int) - 48))
    else acc

/-- C `atoi`, entry point. -/
def atoi (s : String) : Int :=
  match s.toList.dropWhile c_isspace with
  | '-' :: rest => -(atoi_digits rest 0)
  | '+' :: rest => atoi_digits rest 0
  | cs => atoi_digits cs 0

/-- The standardized argument-count error line
(`command_handler.c` / `cli.c`):
Wrong number of args (given: X, required: Y) for CLI command <name>,
with the name in single quotes. -/
def wrong_args_line (name : String) (given required : Nat) : String :=
  "Wrong number of args (given: " ++ toString given ++ ", required: "
    ++ toString required ++ ") for CLI command " ++ sq ++ name ++ sq

/-- The bespoke argument error line used only by the cancel, pause and
resume handlers (`command_handler.c:388,415,443`):
Error: <name> requires 1 argument: <job_id>, with the name in single
quotes. -/
def requires_one_arg_line (name : String) : String :=
  "Error: " ++ sq ++ name ++ sq ++ " requires 1 argument: <job_id>"

/-- Modelled from the spec: `printer_status_names` lives in `presi.h`, which
is not part of the repository; §4.A/§6 of the spec show the rendered status
strings in lower case (`status=idle` etc.). -/
def printer_status_names : PRINTER_STATUS → String
  | PRINTER_DISABLED => "disabled"
  | PRINTER_IDLE => "idle"
  | PRINTER_BUSY => "busy"

/-- The `PRINTER: id=..., name=..., type=..., status=...` console line
(`command_handler.c:221,264,298`). -/
def printer_info_line (idx : Nat) (p : PRINTER) : String :=
  "PRINTER: id=" ++ toString idx ++ ", name=" ++ p.name ++ ", type="
    ++ p.type ++ ", status=" ++ printer_status_names p.status

/-- Result of one CLI command handler: the state afterwards, the `fprintf`
lines written to the output stream, the `sf_*` events, the `killpg` calls,
and the fork counter. -/
structure CmdResult where
  state : SpoolerState
  output : List String
  events : List Event
  signals : List (Int × SignalKind)
  forkN : Nat
  deriving DecidableEq, Repr

/-- `handle_type_command` (`command_handler.c:75-92`); `define_type` belongs
to the external registry and is modelled by the `define_type_ok` oracle. -/
def handle_type_command (o : Oracles) (argv : List String) (st : SpoolerState)
    (n : Nat) : CmdResult :=
  if argv.length ≠ 2 then
    ⟨st, [wrong_args_line "type" (argv.length - 1) 1],
     [Event.cmd_error ("Invalid number of arguments for " ++ sq ++ "type" ++ sq ++ ".")],
     [], n⟩
  else if o.define_type_ok (argv.getD 1 "") = false then
    ⟨st, ["Command error: type (failed)"],
     [Event.cmd_error "define_type() failed."], [], n⟩
  else
    ⟨st, [], [Event.cmd_ok], [], n⟩

/-- `handle_conversion_command` (`command_handler.c:115-167`); the `calloc`
failure branch (allocation of the argv copy) is assumed not taken. -/
def handle_conversion_command (o : Oracles) (argv : List String)
    (st : SpoolerState) (n : Nat) : CmdResult :=
  if argv.length < 4 then
    ⟨st, [wrong_args_line "conversion" (argv.length - 1) 3],
     [Event.cmd_error
       ("Invalid number of arguments for " ++ sq ++ "conversion" ++ sq ++ ".")],
     [], n⟩
  else
    let from_t := argv.getD 1 ""
    let to_t := argv.getD 2 ""
    if o.find_type from_t = false then
      ⟨st, ["Undeclared file type: " ++ from_t, "Command error: conversion (failed)"],
       [Event.cmd_error "conversion"], [], n⟩
    else if o.find_type to_t = false then
      ⟨st, ["Undeclared file type: " ++ to_t, "Command error: conversion (failed)"],
       [Event.cmd_error "conversion"], [], n⟩
    else if o.define_conversion_ok from_t to_t = false then
      ⟨st, ["Command error: conversion (failed)"],
       [Event.cmd_error "define_conversion() failed."], [], n⟩
    else
      ⟨st, [], [Event.cmd_ok], [], n⟩

/-- `handle_printer_command` (`command_handler.c:192-229`). -/
def handle_printer_command (o : Oracles) (maxPrinters : Nat)
    (argv : List String) (st : SpoolerState) (n : Nat) : CmdResult :=
  if argv.length ≠ 3 then
    ⟨st, [wrong_args_line "printer" (argv.length - 1) 2],
     [Event.cmd_error
       ("Invalid number of arguments for " ++ sq ++ "printer" ++ sq ++ ".")],
     [], n⟩
  else
    let name := argv.getD 1 ""
    let ty := argv.getD 2 ""
    if o.find_type ty = false then
      ⟨st, ["Unknown file type: " ++ ty, "Command error: printer (failed)"],
       [Event.cmd_error "printer"], [], n⟩
    else
      let (ret, printers', evs) := add_printer_to_system o maxPrinters st.printers name ty
      if ret ≠ 0 then
        ⟨st, ["Command error: printer (failed)"],
         evs ++ [Event.cmd_error "printer"], [], n⟩
      else
        let st' : SpoolerState := ⟨printers', st.jobs⟩
        let line :=
          match get_printer_by_name printers' name with
          | some k =>
            match printers'[k]? with
            | some p => [printer_info_line (printers'.length - 1) p]
            | none => []
          | none => []
        ⟨st', line, evs ++ [Event.cmd_ok], [], n⟩

/-- `handle_enable_command` (`command_handler.c:246-273`): after the
argument check and the name lookup, the printer's status is set to
`PRINTER_IDLE` unconditionally — there is no check of the prior status —
`sf_printer_status` is emitted, the info line is printed (with
`get_printer_count() - 1` as the displayed id), `try_scheduling_jobs()` is
run and `sf_cmd_ok` is emitted. -/
def handle_enable_command (o : Oracles) (now : Nat) (argv : List String)
    (st : SpoolerState) (n : Nat) : CmdResult :=
  if argv.length ≠ 2 then
    ⟨st, [wrong_args_line "enable" (argv.length - 1) 1],
     [Event.cmd_error
       ("Invalid number of arguments for " ++ sq ++ "enable" ++ sq ++ ".")],
     [], n⟩
  else
    match get_printer_by_name st.printers (argv.getD 1 "") with
    | none =>
      ⟨st, ["Command error: enable (no printer)"], [Event.cmd_error "enable"], [], n⟩
    | some k =>
      match st.printers[k]? with
      | none => ⟨st, [], [], [], n⟩
      | some p =>
        let p' := { p with status := PRINTER_IDLE }
        let st1 : SpoolerState := ⟨st.printers.set k p', st.jobs⟩
        let r := try_scheduling_jobs o now st1 n
        ⟨r.state, [printer_info_line (st.printers.length - 1) p'],
         [Event.printer_status p.name PRINTER_IDLE] ++ r.events ++ [Event.cmd_ok],
         [], r.forkN⟩

/-- `handle_printers_command` (`command_handler.c:294-303`). -/
def handle_printers_command (st : SpoolerState) (n : Nat) : CmdResult :=
  ⟨st, (st.printers.enum.map fun ip => printer_info_line ip.1 ip.2),
   [Event.cmd_ok], [], n⟩

/-- `handle_jobs_command` (`command_handler.c:365-373`). -/
def handle_jobs_command (st : SpoolerState) (n : Nat) : CmdResult :=
  ⟨st, [], (st.jobs.map fun j => Event.job_status j.id j.status) ++ [Event.cmd_ok],
   [], n⟩

/-- `handle_print_command` (`command_handler.c:326-352`): always submits
with `printer = NULL` (auto-selection). -/
def handle_print_command (o : Oracles) (maxJobs now : Nat) (argv : List String)
    (st : SpoolerState) (n : Nat) : CmdResult :=
  if argv.length ≠ 2 then
    ⟨st, [wrong_args_line "print" (argv.length - 1) 1],
     [Event.cmd_error
       ("Invalid number of arguments for " ++ sq ++ "print" ++ sq ++ ".")],
     [], n⟩
  else
    let path := argv.getD 1 ""
    match o.infer_file_type path with
    | none =>
      ⟨st, ["Command error: print (file type)"], [Event.cmd_error "print"], [], n⟩
    | some _ =>
      let (r, n') := submit_print_job o maxJobs now (some path) none st n
      if r.ret ≠ 0 then
        ⟨r.state, ["Command error: print (failed)"],
         r.events ++ [Event.cmd_error "submit_print_job() failed."], r.signals, n'⟩
      else
        ⟨r.state, [], r.events ++ [Event.cmd_ok], r.signals, n'⟩

/-- `handle_cancel_command` (`command_handler.c:386-401`).  Note the
argument-count branch prints `requires_one_arg_line`, not the standardized
`wrong_args_line` used by the other handlers. -/
def handle_cancel_command (now : Nat) (argv : List String) (st : SpoolerState)
    (n : Nat) : CmdResult :=
  if argv.length ≠ 2 then
    ⟨st, [requires_one_arg_line "cancel"],
     [Event.cmd_error ("Invalid arguments for " ++ sq ++ "cancel" ++ sq)], [], n⟩
  else
    let jid := atoi (argv.getD 1 "")
    let r := cancel_job st jid now
    if r.ret ≠ 0 then
      ⟨r.state, ["Error: Failed to cancel job " ++ toString jid],
       r.events ++ [Event.cmd_error "cancel_job() failed"], r.signals, n⟩
    else
      ⟨r.state, [], r.events ++ [Event.cmd_ok], r.signals, n⟩

/-- `handle_pause_command` (`command_handler.c:413-428`). -/
def handle_pause_command (argv : List String) (st : SpoolerState)
    (n : Nat) : CmdResult :=
  if argv.length ≠ 2 then
    ⟨st, [requires_one_arg_line "pause"],
     [Event.cmd_error ("Invalid arguments for " ++ sq ++ "pause" ++ sq)], [], n⟩
  else
    let jid := atoi (argv.getD 1 "")
    let r := pause_job st jid
    if r.ret ≠ 0 then
      ⟨r.state, ["Error: Failed to pause job " ++ toString jid],
       r.events ++ [Event.cmd_error "pause_job() failed"], r.signals, n⟩
    else
      ⟨r.state, [], r.events ++ [Event.cmd_ok], r.signals, n⟩

/-- `handle_resume_command` (`command_handler.c:441-456`). -/
def handle_resume_command (argv : List String) (st : SpoolerState)
    (n : Nat) : CmdResult :=
  if argv.length ≠ 2 then
    ⟨st, [requires_one_arg_line "resume"],
     [Event.cmd_error ("Invalid arguments for " ++ sq ++ "resume" ++ sq)], [], n⟩
  else
    let jid := atoi (argv.getD 1 "")
    let r := resume_job st jid
    if r.ret ≠ 0 then
      ⟨r.state, ["Error: Failed to resume job " ++ toString jid],
       r.events ++ [Event.cmd_error "resume_job() failed"], r.signals, n⟩
    else
      ⟨r.state, [], r.events ++ [Event.cmd_ok], r.signals, n⟩

/-- The one-line command list printed by `help` and after some errors
(`command_handler.c:60-63,496-498`). -/
def commands_summary_line : String :=
  "Commands are: help quit type printer conversion printers jobs print cancel disable enable pause resume"

/-- `handle_user_command` (`command_handler.c:483-532`): dispatch on
`argv[0]`.  The `quit` case inside the dispatcher only emits `sf_cmd_ok`
(`run_cli` intercepts `quit` before this function is reached). -/
def handle_user_command (o : Oracles) (maxPrinters maxJobs now : Nat)
    (argv : List String) (st : SpoolerState) (n : Nat) : CmdResult :=
  if argv.length = 0 then ⟨st, [], [], [], n⟩
  else if argv.headD "" = "help" then
    if argv.length ≠ 1 then
      ⟨st, [wrong_args_line "help" (argv.length - 1) 0],
       [Event.cmd_error
         ("Invalid number of arguments for " ++ sq ++ "help" ++ sq)], [], n⟩
    else
      ⟨st, [commands_summary_line], [Event.cmd_ok], [], n⟩
  else if argv.headD "" = "type" then handle_type_command o argv st n
  else if argv.headD "" = "conversion" then handle_conversion_command o argv st n
  else if argv.headD "" = "printer" then handle_printer_command o maxPrinters argv st n
  else if argv.headD "" = "enable" then handle_enable_command o now argv st n
  else if argv.headD "" = "disable" then
    ⟨st, ["Command error: disable (not implemented)"],
     [Event.cmd_error "disable command not implemented"], [], n⟩
  else if argv.headD "" = "printers" then handle_printers_command st n
  else if argv.headD "" = "print" then handle_print_command o maxJobs now argv st n
  else if argv.headD "" = "jobs" then handle_jobs_command st n
  else if argv.headD "" = "cancel" then handle_cancel_command now argv st n
  else if argv.headD "" = "pause" then handle_pause_command argv st n
  else if argv.headD "" = "resume" then handle_resume_command argv st n
  else if argv.headD "" = "quit" then ⟨st, [], [Event.cmd_ok], [], n⟩
  else
    ⟨st, ["Unrecognized command: " ++ argv.headD ""],
     [Event.cmd_error "Unknown command."], [], n⟩

/-- The `quit` interception in `run_cli` (`cli.c:256-266`): with extra
arguments it produces the standardized wrong-args line and `sf_cmd_error`;
alone it acknowledges with `sf_cmd_ok` and terminates the loop. -/
def quit_command_reply (numTokens : Nat) : List String × List Event :=
  if numTokens ≠ 1 then
    ([wrong_args_line "quit" (numTokens - 1) 0],
     [Event.cmd_error ("Invalid number of arguments for " ++ sq ++ "quit" ++ sq)])
  else
    ([], [Event.cmd_ok])

/-! Concrete fixtures used by witnesses and counterexamples. -/

/-- An empty spooler state: no printers declared, no jobs submitted. -/
def stEmpty : SpoolerState := ⟨[], []⟩

/-- A state with one busy printer and one running job (pgid 42) assigned to
it — the shape reached right after a successful scheduling step. -/
def stRunning : SpoolerState :=
  ⟨[⟨"alice", "pdf", PRINTER_BUSY⟩],
   [⟨0, "doc.pdf", some 0, JOB_RUNNING, 42, 0, 0⟩]⟩

/-- Like `stRunning` but with the job paused. -/
def stPaused : SpoolerState :=
  ⟨[⟨"alice", "pdf", PRINTER_BUSY⟩],
   [⟨0, "doc.pdf", some 0, JOB_PAUSED, 42, 0, 0⟩]⟩

/-- The job-table shape right after the expiry sweep has removed job 0 and
compacted: the surviving job keeps its `id` field 1 but now lives at array
index 0. -/
def stCompacted : SpoolerState :=
  ⟨[⟨"alice", "pdf", PRINTER_BUSY⟩],
   [⟨1, "doc.pdf", some 0, JOB_RUNNING, 42, 0, 0⟩]⟩

/-- A concrete oracle assignment: every path infers as type `txt`, every
type name is declared, no conversion path exists, every pipeline launch
fails.  Used where the oracle answers are irrelevant or where scheduling
must stay inert. -/
def oraNone : Oracles :=
  ⟨fun _ => some "txt", fun _ => true, fun _ => true, fun _ _ => true,
   fun _ _ => none, fun _ => -1⟩

/-- Oracle for the printer-selection scenario: source type `A`, a registered
conversion `A → B`, successful forks. -/
def oraConv : Oracles :=
  ⟨fun _ => some "A", fun _ => true, fun _ => true, fun _ _ => true,
   fun a b => if a = "A" ∧ b = "B" then some ["a2b"] else none,
   fun _ => 100⟩

/-- Registry for the printer-selection scenario: the printer that needs a
conversion (`p0`, native type `B`) precedes the direct-match printer (`p1`,
native type `A`); both are idle. -/
def psSelect : List PRINTER :=
  [⟨"p0", "B", PRINTER_IDLE⟩, ⟨"p1", "A", PRINTER_IDLE⟩]

/-! Helper lemmas shared by the claim theorems. -/

theorem mem_of_getElem_eq_some {α : Type _} {l : List α} {i : Nat} {a : α}
    (h : l[i]? = some a) : a ∈ l := by
  obtain ⟨hi, rfl⟩ := List.getElem?_eq_some.mp h
  exact List.getElem_mem hi

/-- A scheduler pass skips a job slot that is not `JOB_CREATED`. -/
theorem sched_step_of_no_created (o : Oracles) (now : Nat) (st : SpoolerState)
    (i n : Nat) (h : ∀ j ∈ st.jobs, j.status ≠ JOB_CREATED) :
    sched_step o now st i n = ⟨st, [], n⟩ := by
  unfold sched_step
  cases hj : st.jobs[i]? with
  | none => rfl
  | some job => simp [h job (mem_of_getElem_eq_some hj)]

/-- A scheduler pass over any index list is inert when no job is
`JOB_CREATED`. -/
theorem sched_loop_of_no_created (o : Oracles) (now : Nat) (idxs : List Nat)
    (st : SpoolerState) (n : Nat) (h : ∀ j ∈ st.jobs, j.status ≠ JOB_CREATED) :
    sched_loop o now idxs st n = ⟨st, [], n⟩ := by
  induction idxs with
  | nil => rfl
  | cons i rest ih =>
    unfold sched_loop
    rw [sched_step_of_no_created o now st i n h]
    simp [ih]

/-- `try_scheduling_jobs` is inert when no job is `JOB_CREATED`. -/
theorem try_scheduling_jobs_of_no_created (o : Oracles) (now : Nat)
    (st : SpoolerState) (n : Nat)
    (h : ∀ j ∈ st.jobs, j.status ≠ JOB_CREATED) :
    try_scheduling_jobs o now st n = ⟨st, [], n⟩ :=
  sched_loop_of_no_created o now _ st n h

/-- The reap scan passes over a run of jobs none of which matches the
reaped pid. -/
theorem reap_scan_of_no_match (now : Nat) (pid : Int) (ws : WaitStatus)
    (l : List JOB) (ps : List PRINTER) (h : ∀ j ∈ l, j.pgid ≠ pid) :
    reap_scan now pid ws l ps = (l, ps, []) := by
  induction l with
  | nil => rfl
  | cons j rest ih =>
    unfold reap_scan
    rw [if_neg (h j (by simp))]
    have := ih (fun x hx => h x (List.mem_cons_of_mem j hx))
    simp [this]

/-- The reap scan on a table that contains exactly one job matching the
reaped pid updates that job (and its printer) with `apply_child_event` and
passes every other job through unchanged. -/
theorem reap_scan_split (now : Nat) (pid : Int) (ws : WaitStatus)
    (l1 l2 : List JOB) (j : JOB) (ps : List PRINTER)
    (h1 : ∀ x ∈ l1, x.pgid ≠ pid) (h2 : ∀ x ∈ l2, x.pgid ≠ pid)
    (hj : j.pgid = pid) :
    reap_scan now pid ws (l1 ++ j :: l2) ps =
      (l1 ++ (apply_child_event now ws j ps).1 :: l2,
       (apply_child_event now ws j ps).2.1,
       (apply_child_event now ws j ps).2.2) := by
  induction l1 with
  | nil =>
    simp only [List.nil_append, reap_scan]
    rw [if_pos hj]
    rw [reap_scan_of_no_match now pid ws l2 _ h2]
    simp
  | cons a l1 ih =>
    simp only [List.cons_append, reap_scan]
    rw [if_neg (h1 a (by simp))]
    simp only [List.append_eq]
    rw [ih (fun x hx => h1 x (List.mem_cons_of_mem a hx))]

/-- The job produced by `apply_child_event` is never `JOB_CREATED`. -/
theorem apply_child_event_not_created (now : Nat) (ws : WaitStatus)
    (job : JOB) (ps : List PRINTER) :
    (apply_child_event now ws job ps).1.status ≠ JOB_CREATED := by
  cases ws <;> simp [apply_child_event] <;>
    cases job.target_printer <;> simp <;> split <;> simp

/-- Setting a list element to a value with the same image under `f` leaves
the mapped list unchanged. -/
theorem map_set_of_eq {α β : Type _} (f : α → β) :
    ∀ (l : List α) (i : Nat) (a b : α), l[i]? = some b → f a = f b →
      (l.set i a).map f = l.map f := by
  intro l
  induction l with
  | nil => intro i a b h _; simp at h
  | cons x xs ih =>
    intro i a b h hf
    cases i with
    | zero =>
      simp at h
      subst h
      simp [hf]
    | succ i =>
      simp at h
      simp [ih i a b h hf]

/-- Claim C1, counterexample.  The claim states that cancel of a Running job
only sends SIGTERM and leaves the job's status, the printer's status and all
other fields unchanged at the moment of sending.  On the concrete state
`stRunning` (one running job, pgid 42, on the busy printer), `cancel_job`
does send exactly SIGTERM, but at the same moment it already rewrites the
job to `JOB_ABORTED` (with a fresh `status_changed_at`) and the printer to
`PRINTER_IDLE`: the state is not left unchanged. -/
theorem cancel_mutates_state_at_send :
    (cancel_job stRunning 0 5).signals = [((42 : Int), SignalKind.SIGTERM)] ∧
    (cancel_job stRunning 0 5).state =
      ⟨[⟨"alice", "pdf", PRINTER_IDLE⟩],
       [⟨0, "doc.pdf", some 0, JOB_ABORTED, 42, 0, 5⟩]⟩ ∧
    (cancel_job stRunning 0 5).state ≠ stRunning := by
  refine ⟨rfl, rfl, by decide⟩

/-- Claim C1, amended.  Pause of a running job sends exactly SIGSTOP to the
job's process group and leaves the whole spooler state unchanged; resume of
a paused job sends exactly SIGCONT and leaves the state unchanged; cancel
of a running job sends exactly SIGTERM, and cancel of a paused job sends
SIGCONT followed by SIGTERM, but cancel — unlike pause and resume — already
transitions the job to `JOB_ABORTED` (refreshing `status_changed_at`) and
the assigned printer to `PRINTER_IDLE` at the moment of sending, rather
than waiting for the subsequent child-status event. -/
theorem signal_ops_effects :
    (∀ (st : SpoolerState) (i : Nat) (job : JOB),
      st.jobs[i]? = some job → job.status = JOB_RUNNING →
      pause_job st (i : Int) = ⟨0, st, [(job.pgid, SignalKind.SIGSTOP)], []⟩) ∧
    (∀ (st : SpoolerState) (i : Nat) (job : JOB),
      st.jobs[i]? = some job → job.status = JOB_PAUSED →
      resume_job st (i : Int) = ⟨0, st, [(job.pgid, SignalKind.SIGCONT)], []⟩) ∧
    (∀ (st : SpoolerState) (i : Nat) (job : JOB) (now k : Nat) (p : PRINTER),
      st.jobs[i]? = some job → job.status = JOB_RUNNING →
      job.target_printer = some k → st.printers[k]? = some p →
      cancel_job st (i : Int) now =
        ⟨0, ⟨st.printers.set k { p with status := PRINTER_IDLE },
             st.jobs.set i { job with status := JOB_ABORTED, status_changed_at := now }⟩,
         [(job.pgid, SignalKind.SIGTERM)],
         [Event.job_status job.id JOB_ABORTED,
          Event.printer_status p.name PRINTER_IDLE,
          Event.job_aborted job.id 0]⟩) ∧
    (∀ (st : SpoolerState) (i : Nat) (job : JOB) (now k : Nat) (p : PRINTER),
      st.jobs[i]? = some job → job.status = JOB_PAUSED →
      job.target_printer = some k → st.printers[k]? = some p →
      cancel_job st (i : Int) now =
        ⟨0, ⟨st.printers.set k { p with status := PRINTER_IDLE },
             st.jobs.set i { job with status := JOB_ABORTED, status_changed_at := now }⟩,
         [(job.pgid, SignalKind.SIGCONT), (job.pgid, SignalKind.SIGTERM)],
         [Event.job_status job.id JOB_ABORTED,
          Event.printer_status p.name PRINTER_IDLE,
          Event.job_aborted job.id 0]⟩) := by
  have hbound : ∀ (st : SpoolerState) (i : Nat) (job : JOB),
      st.jobs[i]? = some job →
      ¬((i : Int) < 0 ∨ (st.jobs.length : Int) ≤ (i : Int)) := by
    intro st i job h
    have := (List.getElem?_eq_some.mp h).1
    omega
  refine ⟨?_, ?_, ?_, ?_⟩
  · intro st i job h hst
    unfold pause_job
    rw [if_neg (hbound st i job h)]
    simp only [Int.toNat_natCast]
    rw [h]
    simp [hst]
  · intro st i job h hst
    unfold resume_job
    rw [if_neg (hbound st i job h)]
    simp only [Int.toNat_natCast]
    rw [h]
    simp [hst]
  · intro st i job now k p h hst hk hp
    unfold cancel_job
    rw [if_neg (hbound st i job h)]
    simp only [Int.toNat_natCast]
    rw [h]
    simp [hst, hk, hp]
  · intro st i job now k p h hst hk hp
    unfold cancel_job
    rw [if_neg (hbound st i job h)]
    simp only [Int.toNat_natCast]
    rw [h]
    simp [hst, hk, hp]

/-- Claim C1, witness: the four cases of `signal_ops_effects` instantiated
on `stRunning` / `stPaused`. -/
theorem signal_ops_effects_witness :
    pause_job stRunning 0 = ⟨0, stRunning, [((42 : Int), SignalKind.SIGSTOP)], []⟩ ∧
    resume_job stPaused 0 = ⟨0, stPaused, [((42 : Int), SignalKind.SIGCONT)], []⟩ ∧
    cancel_job stRunning 0 5 =
      ⟨0, ⟨[⟨"alice", "pdf", PRINTER_IDLE⟩],
           [⟨0, "doc.pdf", some 0, JOB_ABORTED, 42, 0, 5⟩]⟩,
       [((42 : Int), SignalKind.SIGTERM)],
       [Event.job_status 0 JOB_ABORTED, Event.printer_status "alice" PRINTER_IDLE,
        Event.job_aborted 0 0]⟩ ∧
    cancel_job stPaused 0 5 =
      ⟨0, ⟨[⟨"alice", "pdf", PRINTER_IDLE⟩],
           [⟨0, "doc.pdf", some 0, JOB_ABORTED, 42, 0, 5⟩]⟩,
       [((42 : Int), SignalKind.SIGCONT), ((42 : Int), SignalKind.SIGTERM)],
       [Event.job_status 0 JOB_ABORTED, Event.printer_status "alice" PRINTER_IDLE,
        Event.job_aborted 0 0]⟩ :=
  ⟨signal_ops_effects.1 stRunning 0 _ rfl rfl,
   signal_ops_effects.2.1 stPaused 0 _ rfl rfl,
   signal_ops_effects.2.2.1 stRunning 0 _ 5 0 _ rfl rfl rfl rfl,
   signal_ops_effects.2.2.2 stPaused 0 _ 5 0 _ rfl rfl rfl rfl⟩

/-- Claim C2, confirmed.  Whenever the `SIGCHLD` flag is set, the dispatcher
invokes `try_scheduling_jobs` exactly once, after draining every pending
event; and for a reaped pid whose unique matching job is `j` (with assigned
printer `p` at registry index `k`), the event is mapped to the new job
status as: Stopped → `JOB_PAUSED` and Continued → `JOB_RUNNING` with no
printer change, Exited (any exit code) → `JOB_FINISHED` and Signalled →
`JOB_ABORTED`, both of the latter idling the owning printer.  The state
shown is the final one; the no-`JOB_CREATED` hypothesis makes the
scheduler run inert so that the mapping itself is visible in it. -/
theorem child_event_dispatch_mapping (o : Oracles) (now : Nat) (pid : Int)
    (ws : WaitStatus) (ps : List PRINTER) (l1 l2 : List JOB) (j : JOB)
    (k : Nat) (p : PRINTER) (n : Nat)
    (h1 : ∀ x ∈ l1, x.pgid ≠ pid) (h2 : ∀ x ∈ l2, x.pgid ≠ pid)
    (hj : j.pgid = pid) (hk : j.target_printer = some k)
    (hp : ps[k]? = some p)
    (hnc : ∀ x ∈ l1 ++ j :: l2, x.status ≠ JOB_CREATED) :
    (∀ (pending : List (Int × WaitStatus)) (st' : SpoolerState) (n' : Nat),
      (handle_child_status_updates o now true pending st' n').schedulerCalls = 1) ∧
    (handle_child_status_updates o now true [(pid, ws)] ⟨ps, l1 ++ j :: l2⟩ n).state =
      ⟨(match ws with
        | .stopped => ps
        | .continued => ps
        | .exited _ => ps.set k { p with status := PRINTER_IDLE }
        | .signaled _ => ps.set k { p with status := PRINTER_IDLE }),
       l1 ++ (match ws with
        | .stopped => { j with status := JOB_PAUSED }
        | .continued => { j with status := JOB_RUNNING }
        | .exited _ => { j with status := JOB_FINISHED, status_changed_at := now }
        | .signaled _ => { j with status := JOB_ABORTED, status_changed_at := now }) :: l2⟩ := by
  constructor
  · intro pending st' n'
    rfl
  · have hnc' : ∀ x ∈ l1 ++ (apply_child_event now ws j ps).1 :: l2,
        x.status ≠ JOB_CREATED := by
      intro x hx
      rcases List.mem_append.mp hx with hx1 | hx2
      · exact hnc x (List.mem_append.mpr (Or.inl hx1))
      · rcases List.mem_cons.mp hx2 with rfl | hx3
        · exact apply_child_event_not_created now ws j ps
        · exact hnc x (List.mem_append.mpr (Or.inr (List.mem_cons_of_mem _ hx3)))
    unfold handle_child_status_updates
    rw [if_neg (by simp)]
    unfold drain_child_events
    rw [reap_scan_split now pid ws l1 l2 j ps h1 h2 hj]
    simp only [drain_child_events]
    rw [try_scheduling_jobs_of_no_created o now
      ⟨(apply_child_event now ws j ps).2.1,
       l1 ++ (apply_child_event now ws j ps).1 :: l2⟩ n hnc']
    cases ws <;> simp [apply_child_event, hk, hp]

/-- Claim C2, witness: the exited-event case of
`child_event_dispatch_mapping` on `stRunning` — the running job (pgid 42)
becomes `JOB_FINISHED`, the busy printer becomes idle, the scheduler is
invoked once. -/
theorem child_event_dispatch_mapping_witness :
    (handle_child_status_updates oraNone 7 true [(42, WaitStatus.exited 0)]
        stRunning 0).schedulerCalls = 1 ∧
    (handle_child_status_updates oraNone 7 true [(42, WaitStatus.exited 0)]
        stRunning 0).state =
      ⟨[⟨"alice", "pdf", PRINTER_IDLE⟩],
       [⟨0, "doc.pdf", some 0, JOB_FINISHED, 42, 0, 7⟩]⟩ := by
  have h := child_event_dispatch_mapping oraNone 7 42 (WaitStatus.exited 0)
    [⟨"alice", "pdf", PRINTER_BUSY⟩] [] []
    ⟨0, "doc.pdf", some 0, JOB_RUNNING, 42, 0, 0⟩ 0
    ⟨"alice", "pdf", PRINTER_BUSY⟩ 0
    (by simp) (by simp) rfl rfl rfl (by decide)
  exact ⟨h.1 [(42, WaitStatus.exited 0)] stRunning 0, h.2⟩

/-- Claim C3, code bug.  The cancel/pause/resume operations are supposed to
locate the target job by comparing the given number against each live job's
`id` field, so that ids survive sweep compaction; the code instead uses the
number as an array index (`job_spool[job_id]`).  Concretely: running the
expiry sweep on a table whose aborted job 0 has been terminal for 10 s
compacts the table to `stCompacted.jobs`, whose single surviving job keeps
`id` 1 but now sits at index 0; every operation addressed to that job by
its id 1 then fails with `-1` (1 is out of range as an index) and sends no
signal, while `cancel_job 0` — the stale index — reaches it. -/
theorem job_lookup_by_index_after_compaction :
    delete_expired_jobs_if_needed 20
        [⟨0, "old.pdf", none, JOB_ABORTED, -1, 0, 5⟩,
         ⟨1, "doc.pdf", some 0, JOB_RUNNING, 42, 0, 0⟩] =
      (stCompacted.jobs, [Event.job_deleted 0]) ∧
    stCompacted.jobs.map JOB.id = [1] ∧
    (cancel_job stCompacted 1 50).ret = -1 ∧
    (cancel_job stCompacted 1 50).state = stCompacted ∧
    (cancel_job stCompacted 1 50).signals = [] ∧
    (pause_job stCompacted 1).ret = -1 ∧
    (pause_job stCompacted 1).signals = [] ∧
    (resume_job stCompacted 1).ret = -1 ∧
    (cancel_job stCompacted 0 50).ret = 0 :=
  ⟨rfl, rfl, rfl, rfl, rfl, rfl, rfl, rfl, rfl⟩

/-- Claim C4, code bug.  The documentation of `select_compatible_printer`
says a printer that supports the file type natively is preferred over one
that requires conversion, but the scan returns the first idle compatible
printer in registry order regardless: on `psSelect` (printer 0 of native
type `B` reachable from source type `A` only via the registered `A → B`
conversion, printer 1 a direct `A` match, both idle) the code picks
printer 0, whereas the documented/specified rule
(`select_compatible_printer_specified`) picks printer 1. -/
theorem printer_selection_ignores_direct_preference :
    select_compatible_printer oraConv "A" psSelect = some 0 ∧
    psSelect[1]? = some ⟨"p1", "A", PRINTER_IDLE⟩ ∧
    (oraConv.find_conversion_path "A" "B").isSome = true ∧
    select_compatible_printer_specified oraConv "A" psSelect = some 1 := by
  refine ⟨by decide, rfl, by decide, by decide⟩

/-- Claim C5, code bug.  The invariant says `supervisor_pgid` is set iff
the status is Running or Paused, so every transition into Finished or
Aborted must clear it; but neither the child-event dispatcher nor
`cancel_job` ever writes `pgid`.  Concretely, on `stRunning` (running job,
pgid 42): after the supervisor's exit event the job is `JOB_FINISHED` with
`pgid` still 42 (not the `-1` sentinel), and after `cancel_job` it is
`JOB_ABORTED` with `pgid` still 42. -/
theorem pgid_not_cleared_on_terminal :
    (handle_child_status_updates oraNone 9 true [(42, WaitStatus.exited 0)]
        stRunning 0).state.jobs =
      [⟨0, "doc.pdf", some 0, JOB_FINISHED, 42, 0, 9⟩] ∧
    (cancel_job stRunning 0 9).state.jobs =
      [⟨0, "doc.pdf", some 0, JOB_ABORTED, 42, 0, 9⟩] :=
  ⟨rfl, rfl⟩

/-- Claim C6, confirmed.  Whenever `submit_print_job` returns `-1` — null
path, full table, unknown file type, non-idle or incompatible explicit
printer, or pipeline launch failure — the observable spooler state is
unchanged: the job table (hence the job count, and every slot) and every
printer's status are exactly as before the call. -/
theorem submit_error_leaves_state_unchanged (o : Oracles) (maxJobs now : Nat)
    (fp : Option String) (pidx : Option Nat) (st : SpoolerState) (n : Nat)
    (r : OpResult) (n' : Nat)
    (hr : submit_print_job o maxJobs now fp pidx st n = (r, n'))
    (h : r.ret = -1) :
    r.state.jobs = st.jobs ∧ r.state.printers = st.printers := by
  simp only [submit_print_job] at hr
  repeat' split at hr
  all_goals injection hr with hval hfork
  all_goals subst hval
  all_goals first
    | exact ⟨rfl, rfl⟩
    | simp at h

/-- Claim C6, witness: submitting into a full table (capacity 0) fails and
leaves the empty state untouched. -/
theorem submit_error_leaves_state_unchanged_witness :
    (submit_print_job oraNone 0 0 (some "a.txt") none stEmpty 0).1.ret = -1 ∧
    (submit_print_job oraNone 0 0 (some "a.txt") none stEmpty 0).1.state.jobs
      = stEmpty.jobs ∧
    (submit_print_job oraNone 0 0 (some "a.txt") none stEmpty 0).1.state.printers
      = stEmpty.printers :=
  ⟨rfl,
   (submit_error_leaves_state_unchanged oraNone 0 0 (some "a.txt") none stEmpty 0
     (submit_print_job oraNone 0 0 (some "a.txt") none stEmpty 0).1
     (submit_print_job oraNone 0 0 (some "a.txt") none stEmpty 0).2 rfl rfl).1,
   (submit_error_leaves_state_unchanged oraNone 0 0 (some "a.txt") none stEmpty 0
     (submit_print_job oraNone 0 0 (some "a.txt") none stEmpty 0).1
     (submit_print_job oraNone 0 0 (some "a.txt") none stEmpty 0).2 rfl rfl).2⟩

/-- Claim C7, counterexample.  The claim says a line is skipped iff it is
blank or consists only of whitespace, and that every line containing a
non-whitespace token is tokenized and dispatched.  The line `" help"`
contains the non-whitespace token `help`, yet `run_cli` skips it: the skip
test is `is_all_whitespace || isspace(input_line[0])`, and the leading
space triggers the second disjunct. -/
theorem leading_whitespace_line_skipped :
    process_input_line (" help".toList) = LineAction.skipped ∧
    is_all_whitespace (" help".toList) = false ∧
    " help".toList ≠ [] := by
  refine ⟨by decide, by decide, by decide⟩

/-- Claim C7, amended.  A line is skipped (without tokenization, dispatch,
or any `cmd_ok`/`cmd_error` event) iff it is entirely whitespace or its
first character is whitespace; every line whose first character is
non-whitespace is tokenized and dispatched to the command handler with a
non-empty token list. -/
theorem line_skip_characterization :
    (∀ cs : List Char, process_input_line cs = LineAction.skipped ↔
      (is_all_whitespace cs = true ∨ c_isspace (cs.headD (Char.ofNat 0)) = true)) ∧
    (∀ (c : Char) (rest : List Char), c_isspace c = false →
      process_input_line (c :: rest) =
        LineAction.dispatched (split_input_line_into_tokens 32 (c :: rest)) ∧
      split_input_line_into_tokens 32 (c :: rest) ≠ []) := by
  constructor
  · intro cs
    unfold process_input_line line_is_skipped
    by_cases h : is_all_whitespace cs || c_isspace (cs.headD (Char.ofNat 0))
    · simp only [if_pos h]
      simpa using h
    · simp only [if_neg h]
      constructor
      · intro hcontra
        cases hsplit : split_input_line_into_tokens 32 cs with
        | nil => rw [hsplit] at hcontra; exact absurd hcontra (by simp)
        | cons t ts => rw [hsplit] at hcontra; exact absurd hcontra (by simp)
      · intro hcontra
        exact absurd (by simpa using hcontra) (by simpa using h)
  · intro c rest hc
    have hskip : line_is_skipped (c :: rest) = false := by
      unfold line_is_skipped is_all_whitespace
      simp [hc]
    have hsplit : split_input_line_into_tokens 32 (c :: rest) =
        ((c :: rest).takeWhile (fun x => !c_isspace x)) ::
          split_input_line_into_tokens 31
            ((((c :: rest).dropWhile (fun x => !c_isspace x)).drop 1)) := by
      conv_lhs => unfold split_input_line_into_tokens
      rw [List.dropWhile_cons, if_neg (by simp [hc])]
    constructor
    · unfold process_input_line
      rw [hskip]
      simp only [Bool.false_eq_true, if_false]
      rw [hsplit]
    · rw [hsplit]
      simp

/-- Claim C7, witness: the line `help` (no leading whitespace) is dispatched
with the single token `help`; the blank line and the tab-only line are
skipped. -/
theorem line_skip_characterization_witness :
    process_input_line ("help".toList) =
      LineAction.dispatched ["help".toList] ∧
    (process_input_line ("".toList) = LineAction.skipped ↔
      (is_all_whitespace ("".toList) = true ∨
        c_isspace (("".toList).headD (Char.ofNat 0)) = true)) := by
  constructor
  · have h := (line_skip_characterization.2 'h' "elp".toList (by decide)).1
    simpa using h
  · exact line_skip_characterization.1 ("".toList)

/-- Claim C8, counterexample.  The claim says that every recognized command
— including cancel, pause and resume — answers a wrong argument count with
the literal standardized line Wrong number of args (given: X, required: Y)
for CLI command <name>.  Invoking `cancel` with no argument instead prints
the line Error: <name> requires 1 argument: <job_id> (name in single
quotes), which is not that line; the command is still reported failed via
`sf_cmd_error`. -/
theorem cancel_wrong_args_message_differs :
    (handle_cancel_command 0 ["cancel"] stEmpty 0).output =
      ["Error: " ++ sq ++ "cancel" ++ sq ++ " requires 1 argument: <job_id>"] ∧
    (handle_cancel_command 0 ["cancel"] stEmpty 0).output ≠
      [wrong_args_line "cancel" 0 1] ∧
    (handle_cancel_command 0 ["cancel"] stEmpty 0).events =
      [Event.cmd_error ("Invalid arguments for " ++ sq ++ "cancel" ++ sq)] := by
  refine ⟨rfl, by decide, rfl⟩

/-- Claim C8, amended.  The commands help, quit, type, conversion (with
fewer than its 3 required arguments), printer, enable and print answer a
wrong argument count with exactly the literal line Wrong number of args
(given: X, required: Y) for CLI command <name> — X the given count, Y the
required count, name in single quotes — and report failure via
`sf_cmd_error`; cancel, pause and resume instead answer with the literal
line Error: <name> requires 1 argument: <job_id> and likewise report
failure, in every case leaving the state untouched. -/
theorem wrong_args_message_by_command :
    (∀ (o : Oracles) (st : SpoolerState) (n : Nat) (args : List String),
      args.length ≠ 1 →
      handle_type_command o ("type" :: args) st n =
        ⟨st, [wrong_args_line "type" args.length 1],
         [Event.cmd_error
           ("Invalid number of arguments for " ++ sq ++ "type" ++ sq ++ ".")],
         [], n⟩) ∧
    (∀ (o : Oracles) (st : SpoolerState) (n : Nat) (args : List String),
      args.length < 3 →
      handle_conversion_command o ("conversion" :: args) st n =
        ⟨st, [wrong_args_line "conversion" args.length 3],
         [Event.cmd_error
           ("Invalid number of arguments for " ++ sq ++ "conversion" ++ sq ++ ".")],
         [], n⟩) ∧
    (∀ (o : Oracles) (maxPrinters : Nat) (st : SpoolerState) (n : Nat)
        (args : List String),
      args.length ≠ 2 →
      handle_printer_command o maxPrinters ("printer" :: args) st n =
        ⟨st, [wrong_args_line "printer" args.length 2],
         [Event.cmd_error
           ("Invalid number of arguments for " ++ sq ++ "printer" ++ sq ++ ".")],
         [], n⟩) ∧
    (∀ (o : Oracles) (now : Nat) (st : SpoolerState) (n : Nat) (args : List String),
      args.length ≠ 1 →
      handle_enable_command o now ("enable" :: args) st n =
        ⟨st, [wrong_args_line "enable" args.length 1],
         [Event.cmd_error
           ("Invalid number of arguments for " ++ sq ++ "enable" ++ sq ++ ".")],
         [], n⟩) ∧
    (∀ (o : Oracles) (maxJobs now : Nat) (st : SpoolerState) (n : Nat)
        (args : List String),
      args.length ≠ 1 →
      handle_print_command o maxJobs now ("print" :: args) st n =
        ⟨st, [wrong_args_line "print" args.length 1],
         [Event.cmd_error
           ("Invalid number of arguments for " ++ sq ++ "print" ++ sq ++ ".")],
         [], n⟩) ∧
    (∀ (o : Oracles) (maxPrinters maxJobs now : Nat) (st : SpoolerState) (n : Nat)
        (args : List String),
      args.length ≠ 0 →
      handle_user_command o maxPrinters maxJobs now ("help" :: args) st n =
        ⟨st, [wrong_args_line "help" args.length 0],
         [Event.cmd_error
           ("Invalid number of arguments for " ++ sq ++ "help" ++ sq)], [], n⟩) ∧
    (∀ numTokens : Nat, numTokens ≠ 1 →
      quit_command_reply numTokens =
        ([wrong_args_line "quit" (numTokens - 1) 0],
         [Event.cmd_error
           ("Invalid number of arguments for " ++ sq ++ "quit" ++ sq)])) ∧
    (∀ (now : Nat) (st : SpoolerState) (n : Nat) (args : List String),
      args.length ≠ 1 →
      handle_cancel_command now ("cancel" :: args) st n =
        ⟨st, [requires_one_arg_line "cancel"],
         [Event.cmd_error ("Invalid arguments for " ++ sq ++ "cancel" ++ sq)],
         [], n⟩) ∧
    (∀ (st : SpoolerState) (n : Nat) (args : List String),
      args.length ≠ 1 →
      handle_pause_command ("pause" :: args) st n =
        ⟨st, [requires_one_arg_line "pause"],
         [Event.cmd_error ("Invalid arguments for " ++ sq ++ "pause" ++ sq)],
         [], n⟩) ∧
    (∀ (st : SpoolerState) (n : Nat) (args : List String),
      args.length ≠ 1 →
      handle_resume_command ("resume" :: args) st n =
        ⟨st, [requires_one_arg_line "resume"],
         [Event.cmd_error ("Invalid arguments for " ++ sq ++ "resume" ++ sq)],
         [], n⟩) := by
  refine ⟨?_, ?_, ?_, ?_, ?_, ?_, ?_, ?_, ?_, ?_⟩
  · intro o st n args h
    unfold handle_type_command
    rw [if_pos (by simp; omega)]
    simp
  · intro o st n args h
    unfold handle_conversion_command
    rw [if_pos (by simp; omega)]
    simp
  · intro o maxPrinters st n args h
    unfold handle_printer_command
    rw [if_pos (by simp; omega)]
    simp
  · intro o now st n args h
    unfold handle_enable_command
    rw [if_pos (by simp; omega)]
    simp
  · intro o maxJobs now st n args h
    unfold handle_print_command
    rw [if_pos (by simp; omega)]
    simp
  · intro o maxPrinters maxJobs now st n args h
    unfold handle_user_command
    rw [if_neg (by simp)]
    simp only [List.headD_cons, if_true]
    rw [if_pos (by simpa using h)]
    simp
  · intro numTokens h
    unfold quit_command_reply
    rw [if_pos h]
  · intro now st n args h
    unfold handle_cancel_command
    rw [if_pos (by simp; omega)]
  · intro st n args h
    unfold handle_pause_command
    rw [if_pos (by simp; omega)]
  · intro st n args h
    unfold handle_resume_command
    rw [if_pos (by simp; omega)]

/-- Claim C8, witness: `wrong_args_message_by_command` instantiated — `type`
with no argument gets the standardized line with X = 0, Y = 1; `cancel`
with two arguments gets the bespoke line. -/
theorem wrong_args_message_by_command_witness :
    handle_type_command oraNone ["type"] stEmpty 0 =
      ⟨stEmpty, [wrong_args_line "type" 0 1],
       [Event.cmd_error
         ("Invalid number of arguments for " ++ sq ++ "type" ++ sq ++ ".")],
       [], 0⟩ ∧
    handle_cancel_command 0 ["cancel", "0", "extra"] stEmpty 0 =
      ⟨stEmpty, [requires_one_arg_line "cancel"],
       [Event.cmd_error ("Invalid arguments for " ++ sq ++ "cancel" ++ sq)],
       [], 0⟩ :=
  ⟨wrong_args_message_by_command.1 oraNone stEmpty 0 [] (by decide),
   wrong_args_message_by_command.2.2.2.2.2.2.2.1 0 stEmpty 0 ["0", "extra"] (by decide)⟩

/-- Claim C9, confirmed.  For a declared printer (found by name at registry
index `k`), `enable` sets its status to `PRINTER_IDLE` unconditionally —
the prior status, including `PRINTER_BUSY` with a job in flight, is never
inspected — and emits the `sf_printer_status(..., IDLE)` event.  The
no-`JOB_CREATED` hypothesis keeps the subsequent `try_scheduling_jobs` run
inert so that the final state exhibits the enable effect itself. -/
theorem enable_sets_idle_unconditionally (o : Oracles) (now : Nat)
    (st : SpoolerState) (n : Nat) (name : String) (k : Nat) (p : PRINTER)
    (hfind : get_printer_by_name st.printers name = some k)
    (hp : st.printers[k]? = some p)
    (hnc : ∀ j ∈ st.jobs, j.status ≠ JOB_CREATED) :
    handle_enable_command o now ["enable", name] st n =
      ⟨⟨st.printers.set k { p with status := PRINTER_IDLE }, st.jobs⟩,
       [printer_info_line (st.printers.length - 1) { p with status := PRINTER_IDLE }],
       [Event.printer_status p.name PRINTER_IDLE, Event.cmd_ok], [], n⟩ := by
  unfold handle_enable_command
  rw [if_neg (by simp)]
  simp only [List.getD_cons_succ, List.getD_cons_zero, hfind, hp]
  rw [try_scheduling_jobs_of_no_created o now
    ⟨st.printers.set k { p with status := PRINTER_IDLE }, st.jobs⟩ n hnc]
  rfl

/-- Claim C9, witness: enabling printer `alice` of `stRunning` while it is
`PRINTER_BUSY` with the running job still sets it to `PRINTER_IDLE` and
emits the status event. -/
theorem enable_sets_idle_unconditionally_witness :
    handle_enable_command oraNone 7 ["enable", "alice"] stRunning 3 =
      ⟨⟨[⟨"alice", "pdf", PRINTER_IDLE⟩], stRunning.jobs⟩,
       [printer_info_line 0 ⟨"alice", "pdf", PRINTER_IDLE⟩],
       [Event.printer_status "alice" PRINTER_IDLE, Event.cmd_ok], [], 3⟩ :=
  enable_sets_idle_unconditionally oraNone 7 stRunning 3 "alice" 0
    ⟨"alice", "pdf", PRINTER_BUSY⟩ rfl rfl (by decide)

/-- One scheduler iteration never renumbers a job: the multiset of `id`
fields (in table order) is invariant. -/
theorem sched_step_map_id (o : Oracles) (now : Nat) (st : SpoolerState)
    (i n : Nat) (r : SchedResult) (hr : sched_step o now st i n = r) :
    r.state.jobs.map JOB.id = st.jobs.map JOB.id := by
  simp only [sched_step] at hr
  repeat' split at hr
  all_goals subst hr
  all_goals first
    | rfl
    | exact map_set_of_eq JOB.id st.jobs i _ _ (by assumption) (by rfl)

/-- The scheduler loop never renumbers a job. -/
theorem sched_loop_map_id (o : Oracles) (now : Nat) (idxs : List Nat) :
    ∀ (st : SpoolerState) (n : Nat),
      (sched_loop o now idxs st n).state.jobs.map JOB.id = st.jobs.map JOB.id := by
  induction idxs with
  | nil => intro st n; rfl
  | cons i rest ih =>
    intro st n
    unfold sched_loop
    show (sched_loop o now rest (sched_step o now st i n).state
        (sched_step o now st i n).forkN).state.jobs.map JOB.id = st.jobs.map JOB.id
    rw [ih (sched_step o now st i n).state (sched_step o now st i n).forkN]
    exact sched_step_map_id o now st i n _ rfl

/-- `try_scheduling_jobs` never renumbers a job. -/
theorem try_scheduling_jobs_map_id (o : Oracles) (now : Nat)
    (st : SpoolerState) (n : Nat) :
    (try_scheduling_jobs o now st n).state.jobs.map JOB.id = st.jobs.map JOB.id :=
  sched_loop_map_id o now (List.range st.jobs.length) st n

/-- Claim C10, confirmed.  A successful printer-less submission assigns the
new job the `id` equal to the job count at the moment of submission (and
scheduling never renumbers), with no freshness across deletions; as a
consequence the concrete trace — submit two jobs (ids 0, 1), cancel job 0
while `JOB_CREATED`, run the expiry sweep 15 s later so the table compacts
to the single survivor with id 1, then submit again — produces a second
live job whose id 1 collides with the survivor's. -/
theorem job_id_assignment_and_duplication :
    (∀ (o : Oracles) (maxJobs now : Nat) (path : String) (st : SpoolerState)
        (n : Nat),
      st.jobs.length < maxJobs → (o.infer_file_type path).isSome →
      (submit_print_job o maxJobs now (some path) none st n).1.state.jobs.map JOB.id
        = st.jobs.map JOB.id ++ [st.jobs.length]) ∧
    (let s1 := (submit_print_job oraNone 64 0 (some "a.txt") none stEmpty 0).1.state
     let s2 := (submit_print_job oraNone 64 1 (some "b.txt") none s1 0).1.state
     let s3 := (cancel_job s2 0 5).state
     let s4 : SpoolerState := ⟨s3.printers, (delete_expired_jobs_if_needed 20 s3.jobs).1⟩
     let s5 := (submit_print_job oraNone 64 20 (some "c.txt") none s4 0).1.state
     s4.jobs.map JOB.id = [1] ∧ s5.jobs.map JOB.id = [1, 1]) := by
  constructor
  · intro o maxJobs now path st n hlen hsome
    obtain ⟨from_t, hit⟩ := Option.isSome_iff_exists.mp hsome
    simp only [submit_print_job, hit, if_neg (Nat.not_le.mpr hlen)]
    rw [try_scheduling_jobs_map_id]
    simp
  · exact ⟨rfl, rfl⟩

/-- Claim C10, witness: the first conjunct of
`job_id_assignment_and_duplication` instantiated on the empty state — the
first submitted job receives id 0 (the current count). -/
theorem job_id_assignment_and_duplication_witness :
    (submit_print_job oraNone 64 0 (some "a.txt") none stEmpty 0).1.state.jobs.map JOB.id
      = [0] := by
  have h := job_id_assignment_and_duplication.1 oraNone 64 0 "a.txt" stEmpty 0
    (by decide) (by decide)
  simpa using h

end Presi
